import Mathlib

/-!
Verification of the xianyu-backend auto-delivery fulfillment engine.

The definitions below are a shallow embedding of the Python source:
- `db_manager.py`: `get_delivery_rules_by_keyword`,
  `get_delivery_rules_by_keyword_and_spec`, `consume_batch_data`.
- `tests/test_auto_delivery_fixes.py`: `MockXianyuLive._extract_order_id`,
  `MockXianyuLive._is_auto_delivery_trigger`, the payment-indicator scan.
- The fulfillment executor (`fulfill`) is modelled from the spec, since
  `XianyuAutoAsync.py` is not part of the sources available here.

SQL `LIKE '%' || x || '%'` is modelled as substring containment (no
wildcard metacharacters appear in the verified claims), SQL `ORDER BY` as
an insertion sort with the corresponding total preorder, and SQL integer
division `LENGTH(k) / 2` as `Nat` division.
-/

namespace Xianyu

/-- `litAt lit s`: `lit` occurs at the head of `s` (character-wise). -/
def litAt : List Char → List Char → Bool
  | [], _ => true
  | _ :: _, [] => false
  | a :: as, b :: bs => a == b && litAt as bs

/-- `hasSub needle hay`: `needle` occurs contiguously inside `hay`
(Python `needle in hay`, SQL `hay LIKE '%' || needle || '%'`). -/
def hasSub : List Char → List Char → Bool
  | n, [] => litAt n []
  | n, c :: cs => litAt n (c :: cs) || hasSub n cs

/-- Substring test on strings: `strContains hay needle`. -/
def strContains (hay needle : String) : Bool :=
  hasSub needle.toList hay.toList

/-- Row of the `cards` table (`models.py`, class `Card`); nullable
columns are `Option`. -/
structure Card where
  id : Nat
  name : String
  type : String
  api_config : Option String
  text_content : Option String
  data_content : Option String
  image_url : Option String
  enabled : Bool
  delay_seconds : Nat
  is_multi_spec : Option Bool
  spec_name : Option String
  spec_value : Option String
deriving DecidableEq

/-- Row of the `delivery_rules` table (`models.py`, class `DeliveryRule`). -/
structure DeliveryRule where
  id : Nat
  keyword : String
  card_id : Nat
  delivery_count : Nat
  enabled : Bool
  delivery_times : Nat
deriving DecidableEq

/-- `FROM delivery_rules dr LEFT JOIN cards c ON dr.card_id = c.id`;
rows with no joined card are dropped because every query below also
demands `c.enabled = true`, which a NULL row never satisfies. -/
def joinCards (rules : List DeliveryRule) (cards : List Card) :
    List (DeliveryRule × Card) :=
  rules.filterMap fun r => (cards.find? fun c => c.id == r.card_id).map fun c => (r, c)

/-- `(:kw LIKE '%' || dr.keyword || '%' OR dr.keyword LIKE '%' || :kw || '%')`:
bidirectional containment between the query text and the rule keyword. -/
def kwMatches (kw : String) (r : DeliveryRule) : Bool :=
  strContains kw r.keyword || strContains r.keyword kw

/-- `CASE WHEN :kw LIKE '%' || dr.keyword || '%' THEN LENGTH(dr.keyword)
ELSE LENGTH(dr.keyword) / 2 END` (SQL integer division). -/
def kwScore (kw : String) (r : DeliveryRule) : Nat :=
  if strContains kw r.keyword then r.keyword.length else r.keyword.length / 2

/-- `ORDER BY score DESC, dr.id ASC` as a total preorder on joined rows
(used by `get_delivery_rules_by_keyword`). -/
def rankRelId (kw : String) (p q : DeliveryRule × Card) : Prop :=
  kwScore kw q.1 < kwScore kw p.1 ∨
    (kwScore kw p.1 = kwScore kw q.1 ∧ p.1.id ≤ q.1.id)

/-- `ORDER BY score DESC, dr.delivery_times ASC` as a total preorder
(used by both passes of `get_delivery_rules_by_keyword_and_spec`). -/
def rankRelTimes (kw : String) (p q : DeliveryRule × Card) : Prop :=
  kwScore kw q.1 < kwScore kw p.1 ∨
    (kwScore kw p.1 = kwScore kw q.1 ∧ p.1.delivery_times ≤ q.1.delivery_times)

instance (kw : String) : DecidableRel (rankRelId kw) := fun _ _ =>
  inferInstanceAs (Decidable (_ ∨ _ ∧ _))

instance (kw : String) : DecidableRel (rankRelTimes kw) := fun _ _ =>
  inferInstanceAs (Decidable (_ ∨ _ ∧ _))

instance (kw : String) : IsTotal (DeliveryRule × Card) (rankRelId kw) :=
  ⟨by intro a b; unfold rankRelId; omega⟩

instance (kw : String) : IsTrans (DeliveryRule × Card) (rankRelId kw) :=
  ⟨by intro a b c; unfold rankRelId; omega⟩

instance (kw : String) : IsTotal (DeliveryRule × Card) (rankRelTimes kw) :=
  ⟨by intro a b; unfold rankRelTimes; omega⟩

instance (kw : String) : IsTrans (DeliveryRule × Card) (rankRelTimes kw) :=
  ⟨by intro a b c; unfold rankRelTimes; omega⟩

/-- `db_manager.get_delivery_rules_by_keyword`: enabled rule, enabled
card, bidirectional containment; ordered by score descending then rule
id ascending. -/
def get_delivery_rules_by_keyword (kw : String) (rules : List DeliveryRule)
    (cards : List Card) : List (DeliveryRule × Card) :=
  List.insertionSort (rankRelId kw)
    ((joinCards rules cards).filter fun p =>
      p.1.enabled && p.2.enabled && kwMatches kw p.1)

/-- First pass of `get_delivery_rules_by_keyword_and_spec`: additionally
`c.is_multi_spec = true AND c.spec_name = :sn AND c.spec_value = :sv`
(SQL `NULL = x` is not true, hence the `some` comparisons); ordered by
score descending then `delivery_times` ascending. -/
def specPassExact (kw sn sv : String) (rules : List DeliveryRule)
    (cards : List Card) : List (DeliveryRule × Card) :=
  List.insertionSort (rankRelTimes kw)
    ((joinCards rules cards).filter fun p =>
      p.1.enabled && p.2.enabled && kwMatches kw p.1 &&
      p.2.is_multi_spec == some true &&
      p.2.spec_name == some sn && p.2.spec_value == some sv)

/-- Fallback pass of `get_delivery_rules_by_keyword_and_spec`:
`(c.is_multi_spec = false OR c.is_multi_spec IS NULL)`; same ordering. -/
def specPassFallback (kw : String) (rules : List DeliveryRule)
    (cards : List Card) : List (DeliveryRule × Card) :=
  List.insertionSort (rankRelTimes kw)
    ((joinCards rules cards).filter fun p =>
      p.1.enabled && p.2.enabled && kwMatches kw p.1 &&
      (p.2.is_multi_spec == some false || p.2.is_multi_spec == none))

/-- Python truthiness of the optional `spec_name` / `spec_value`
arguments (`if spec_name and spec_value:`). -/
def specSupplied : Option String → Bool
  | none => false
  | some s => !(s == "")

/-- `db_manager.get_delivery_rules_by_keyword_and_spec`: run the exact
multi-spec pass when both spec parts are supplied (non-empty); return it
if non-empty, otherwise run the generic fallback pass. -/
def get_delivery_rules_by_keyword_and_spec (kw : String) (sn sv : Option String)
    (rules : List DeliveryRule) (cards : List Card) : List (DeliveryRule × Card) :=
  match sn, sv with
  | some n, some v =>
    if !(n == "") && !(v == "") then
      let pass1 := specPassExact kw n v rules cards
      if pass1.isEmpty then specPassFallback kw rules cards else pass1
    else specPassFallback kw rules cards
  | _, _ => specPassFallback kw rules cards

/-- The `try/except` wrapper of `get_delivery_rules_by_keyword`: a
failing database query degrades to the empty list instead of raising. -/
def get_delivery_rules_by_keyword_guarded (kw : String)
    (runQuery : String → Except String (List (DeliveryRule × Card))) :
    List (DeliveryRule × Card) :=
  match runQuery kw with
  | Except.ok rows => rows
  | Except.error _ => []

/-- Python `\s` on ASCII input (also used by `str.strip()` below). -/
def isPyWs (c : Char) : Bool :=
  c == ' ' || c == '\t' || c == '\n' || c == '\r' || c == '\x0b' || c == '\x0c'

/-- `content.split('\n')` on the character list (Python `str.split` with
an explicit separator keeps empty pieces). -/
def splitNl : List Char → List (List Char)
  | [] => [[]]
  | c :: cs =>
    if c = '\n' then [] :: splitNl cs
    else
      match splitNl cs with
      | [] => [[c]]
      | l :: ls => (c :: l) :: ls

/-- Python `str.strip()` (ASCII whitespace suffices for stock lines). -/
def stripChars (l : List Char) : List Char :=
  ((l.dropWhile isPyWs).reverse.dropWhile isPyWs).reverse

/-- `[line.strip() for line in content.split('\n') if line.strip()]`:
split on newlines, trim every line, keep the non-blank ones. -/
def nonBlankLines (s : String) : List String :=
  (((splitNl s.toList).map stripChars).filter fun l => !l.isEmpty).map
    fun l => String.mk l

/-- `'\n'.join(lines)`. -/
def joinNl : List String → String
  | [] => ""
  | [l] => l
  | l :: l2 :: rest => l ++ "\n" ++ joinNl (l2 :: rest)

/-- Pop the first non-blank line of one card's `data_content` and write
the remaining lines back (`'\n'.join(remaining_lines)`); a NULL or
blank content yields no line and leaves the card unchanged. -/
def popCard (c : Card) : Option String × Card :=
  match c.data_content with
  | none => (none, c)
  | some dc =>
    match nonBlankLines dc with
    | [] => (none, c)
    | l :: ls =>
      (some l, { c with data_content := some (String.intercalate "\n" ls) })

/-- Recursive worker for `consume_batch_data` over the card table:
find the first card with the given id and type `'data'` (the id is the
table's primary key) and pop its first non-blank stock line. -/
def consumeGo (card_id : Nat) : List Card → Option String × List Card
  | [] => (none, [])
  | c :: rest =>
    if c.id = card_id ∧ c.type = "data" then
      ((popCard c).1, (popCard c).2 :: rest)
    else
      ((consumeGo card_id rest).1, c :: (consumeGo card_id rest).2)

/-- `db_manager.consume_batch_data`: pop the first non-blank stock line
of the `'data'` card with the given id; the returned pair is the popped
line (or `none`: missing card, wrong type, NULL/blank content) and the
updated card table, committed in one transaction. -/
def consume_batch_data (cards : List Card) (card_id : Nat) :
    Option String × List Card :=
  consumeGo card_id cards

/-- Terminal outcome of the fulfillment executor (spec §4.3). -/
inductive Outcome where
  | Fulfilled : String → Outcome
  | Skipped : String → Outcome
  | Failed : String → Outcome
deriving DecidableEq

/-- Engine-visible persistent state: idempotency ledger, rule counters,
card table (stock lives in the cards' `data_content`). -/
structure EngineState where
  ledger : List String
  rules : List DeliveryRule
  cards : List Card
deriving DecidableEq

/-- Static payload of a non-`data` card (spec §4.3 step 3: `text`,
`image`, `api` deliver the card's static content without mutation). -/
def staticPayload (c : Card) : String :=
  if c.type = "text" then c.text_content.getD ""
  else if c.type = "image" then c.image_url.getD ""
  else c.api_config.getD ""

/-- Increment `delivery_times` of the rule with the given id
(`db_manager.increment_delivery_times`). -/
def bumpDeliveryTimes (rule_id : Nat) (rules : List DeliveryRule) :
    List DeliveryRule :=
  rules.map fun r =>
    if r.id = rule_id then { r with delivery_times := r.delivery_times + 1 } else r

/-- Modelled from the spec: the FulfillmentExecutor `fulfill` of §4.3 is
implemented in `XianyuAutoAsync.py`, which is not among the available
sources (only its unit-test mirror is). Steps, per the spec: (1)
idempotency gate — a key already in the ledger returns
`Skipped("already-delivered")` with no further side effects; (2) empty
candidate list returns `Skipped("no-rule-match")`; (3) `data` cards pop
one stock line via `consume_batch_data` (source-embedded above), an
exhausted card returns `Failed("out-of-stock")` leaving the ledger
unmarked; (4) on success the ledger entry and the counter increment
commit atomically with the stock pop. Each invocation is one atomic
step; concurrent duplicate invocations are the two serializations of
these atomic steps (§5). -/
def fulfill (key : String) (cands : List (DeliveryRule × Card))
    (s : EngineState) : Outcome × EngineState :=
  if key ∈ s.ledger then (Outcome.Skipped "already-delivered", s)
  else
    match cands with
    | [] => (Outcome.Skipped "no-rule-match", s)
    | (r, c) :: _ =>
      if c.type = "data" then
        match consume_batch_data s.cards c.id with
        | (none, _) => (Outcome.Failed "out-of-stock", s)
        | (some v, cards1) =>
          (Outcome.Fulfilled v,
            { ledger := key :: s.ledger,
              rules := bumpDeliveryTimes r.id s.rules,
              cards := cards1 })
      else
        (Outcome.Fulfilled (staticPayload c),
          { ledger := key :: s.ledger,
            rules := bumpDeliveryTimes r.id s.rules,
            cards := s.cards })

/-- Untyped inbound platform event: nested maps/lists/scalars
(the `message: dict` trees of `test_auto_delivery_fixes.py`). -/
inductive PyVal where
  | pstr : String → PyVal
  | pint : Int → PyVal
  | pdict : List (String × PyVal) → PyVal
  | plist : List PyVal → PyVal

/-- Python truthiness of a value. -/
def pyTruthy : PyVal → Bool
  | .pstr s => !(s == "")
  | .pint n => !(n == 0)
  | .pdict es => !es.isEmpty
  | .plist xs => !xs.isEmpty

/-- `dict.get(k, dflt)` on the entry list of a dict. -/
def dictGet (es : List (String × PyVal)) (k : String) (dflt : PyVal) : PyVal :=
  match es.find? fun kv => kv.1 == k with
  | some kv => kv.2
  | none => dflt

/-- `v.get(k, dflt)`: `some` of the looked-up value when `v` is a dict,
`none` when `v` is not a dict (Python raises `AttributeError`). -/
def pyGetOr (v : PyVal) (k : String) (dflt : PyVal) : Option PyVal :=
  match v with
  | .pdict es => some (dictGet es k dflt)
  | _ => none

mutual

/-- Python `str(...)` of an event tree: `repr` of a dict/list, strings
single-quoted (no escaping arises in the verified inputs), ints bare. -/
def pyStr : PyVal → String
  | .pstr s => "\x27" ++ s ++ "\x27"
  | .pint n => toString n
  | .pdict es => "\x7b" ++ pyStrEntries es ++ "\x7d"
  | .plist xs => "[" ++ pyStrElems xs ++ "]"

/-- `str` of a dict's entries, comma-separated. -/
def pyStrEntries : List (String × PyVal) → String
  | [] => ""
  | [kv] => "\x27" ++ kv.1 ++ "\x27: " ++ pyStr kv.2
  | kv :: kv2 :: rest =>
    "\x27" ++ kv.1 ++ "\x27: " ++ pyStr kv.2 ++ ", " ++ pyStrEntries (kv2 :: rest)

/-- `str` of a list's elements, comma-separated. -/
def pyStrElems : List PyVal → String
  | [] => ""
  | [v] => pyStr v
  | v :: v2 :: rest => pyStr v ++ ", " ++ pyStrElems (v2 :: rest)

end

/-- `lit.isPrefixOf s` with the remainder: consume a literal or fail. -/
def dropLit : List Char → List Char → Option (List Char)
  | [], s => some s
  | _ :: _, [] => none
  | a :: as, b :: bs => if a = b then dropLit as bs else none

/-- Greedy `\d{10,}` at the head: the maximal ASCII digit run, accepted
only when it has at least 10 digits. -/
def digitsAtLeast10 (s : List Char) : Option String :=
  let ds := s.takeWhile Char.isDigit
  if 10 ≤ ds.length then some (String.mk ds) else none

/-- Greedy `\d+` at the head: the maximal digit run, at least 1 digit. -/
def digitsAtLeast1 (s : List Char) : Option String :=
  let ds := s.takeWhile Char.isDigit
  if ds.isEmpty then none else some (String.mk ds)

/-- `orderId[=:](\d{10,})` anchored at the current position. -/
def matchP1 (s : List Char) : Option String :=
  match dropLit "orderId".toList s with
  | none => none
  | some [] => none
  | some (c :: rest) =>
    if c = '=' ∨ c = ':' then digitsAtLeast10 rest else none

/-- `order_detail\?id=(\d{10,})` anchored at the current position. -/
def matchP2 (s : List Char) : Option String :=
  match dropLit "order_detail?id=".toList s with
  | none => none
  | some rest => digitsAtLeast10 rest

/-- `"id"\s*:\s*"?(\d{10,})"?` anchored at the current position (the
trailing optional quote does not affect the captured digits). -/
def matchP3 (s : List Char) : Option String :=
  match dropLit "\x22id\x22".toList s with
  | none => none
  | some r1 =>
    match r1.dropWhile isPyWs with
    | ':' :: r2 =>
      let r3 := r2.dropWhile isPyWs
      let r4 := match r3 with
        | '\x22' :: t => t
        | _ => r3
      digitsAtLeast10 r4
    | _ => none

/-- `bizOrderId[=:](\d{10,})` anchored at the current position. -/
def matchP4 (s : List Char) : Option String :=
  match dropLit "bizOrderId".toList s with
  | none => none
  | some [] => none
  | some (c :: rest) =>
    if c = '=' ∨ c = ':' then digitsAtLeast10 rest else none

/-- Leftmost match of an anchored matcher: try every position from the
left (`re.findall(...)  [0]` keeps the leftmost capture). -/
def scanLeftmost (m : List Char → Option String) : List Char → Option String
  | [] => m []
  | c :: cs =>
    match m (c :: cs) with
    | some r => some r
    | none => scanLeftmost m cs

/-- The `for pattern in patterns: ... break` loop of method 3 of
`_extract_order_id`: first pattern (in list order) with a match wins. -/
def scanPatternLoop : List (List Char → Option String) → List Char → Option String
  | [], _ => none
  | m :: ms, s =>
    match scanLeftmost m s with
    | some r => some r
    | none => scanPatternLoop ms s

/-- Method 3 of `_extract_order_id`: the flattened-string scan over the
four patterns in source order. -/
def extractFlat (msg : String) : Option String :=
  scanPatternLoop [matchP1, matchP2, matchP3, matchP4] msg.toList

/-- Spec-side restatement (§4.1 step 2): serialize the event, then scan
`orderId[=:]`, `order_detail\?id=`, `"id":`, `bizOrderId[=:]` in that
fixed priority order, each demanding at least 10 digits; the first match
of the first matching pattern wins. Stated from the spec's words, to be
compared with the source-side `extractFlat`. -/
def specPriorityScan (msg : String) : Option String :=
  match scanLeftmost matchP1 msg.toList with
  | some r => some r
  | none =>
    match scanLeftmost matchP2 msg.toList with
    | some r => some r
    | none =>
      match scanLeftmost matchP3 msg.toList with
      | some r => some r
      | none => scanLeftmost matchP4 msg.toList

/-- `re.search(r'orderId=(\d+)', url)` of method 1 (note: no 10-digit
minimum in the structured path). -/
def searchOrderIdEq (url : String) : Option String :=
  scanLeftmost (fun s =>
    match dropLit "orderId=".toList s with
    | none => none
    | some rest => digitsAtLeast1 rest) url.toList

/-- `re.search(r'order_detail\?id=(\d+)', url)` of method 1. -/
def searchOrderDetailId (url : String) : Option String :=
  scanLeftmost (fun s =>
    match dropLit "order_detail?id=".toList s with
    | none => none
    | some rest => digitsAtLeast1 rest) url.toList

/-- `content_data.get('dxCard', {}).get('item', {}).get('main', {})`
chain; `none` models a raised `AttributeError`. -/
def navMain (j : PyVal) : Option PyVal :=
  pyGetOr j "dxCard" (.pdict []) >>= fun a =>
  pyGetOr a "item" (.pdict []) >>= fun b =>
  pyGetOr b "main" (.pdict [])

/-- `...get('exContent', {}).get('button', {}).get('targetUrl', '')`. -/
def navButtonTargetUrl (j : PyVal) : Option PyVal :=
  navMain j >>= fun m =>
  pyGetOr m "exContent" (.pdict []) >>= fun e =>
  pyGetOr e "button" (.pdict []) >>= fun b =>
  pyGetOr b "targetUrl" (.pstr "")

/-- Method 1b of `_extract_order_id`: `main.targetUrl` scanned for
`order_detail\?id=(\d+)`; `none` covers AttributeError, a non-string
truthy url (TypeError in `re.search`), a falsy url, and a failed search
alike — in each case `order_id` stays `None`. -/
def structMainUrl (j : PyVal) : Option String :=
  match navMain j >>= fun m => pyGetOr m "targetUrl" (.pstr "") with
  | none => none
  | some (.pstr t) => if t == "" then none else searchOrderDetailId t
  | some _ => none

/-- Methods 1a/1b applied to the parsed card payload: try the button
`targetUrl` for `orderId=`, then the main `targetUrl` for
`order_detail?id=`. A navigation error or a `re.search` on a truthy
non-string raises inside the inner `try`, skipping method 1b. -/
def structFromJson (j : PyVal) : Option String :=
  match navButtonTargetUrl j with
  | none => none
  | some (.pstr t) =>
    if t == "" then structMainUrl j
    else
      match searchOrderIdEq t with
      | some d => some d
      | none => structMainUrl j
  | some v => if pyTruthy v then none else structMainUrl j

/-- `message.get('1', {})...get('3', {}).get('5', '')`: the nested path
that carries the serialized card payload; anything non-dict along the
way leaves `content_json_str` empty. -/
def contentJsonVal (es : List (String × PyVal)) : PyVal :=
  match dictGet es "1" (.pdict []) with
  | .pdict es1 =>
    match dictGet es1 "6" (.pdict []) with
    | .pdict es16 =>
      match dictGet es16 "3" (.pdict []) with
      | .pdict es163 => dictGet es163 "5" (.pstr "")
      | _ => .pstr ""
    | _ => .pstr ""
  | _ => .pstr ""

/-- Method 1 (structured extraction) of `_extract_order_id`,
parameterized by `jp`, the model of `json.loads` (`none` = parse
error). A truthy non-string `content_json_str` makes `json.loads` raise
(caught, yielding no id); a falsy one skips the block. -/
def structExtract (jp : String → Option PyVal) (es : List (String × PyVal)) :
    Option String :=
  match contentJsonVal es with
  | .pstr s =>
    if s == "" then none
    else
      match jp s with
      | none => none
      | some j => structFromJson j
  | _ => none

/-- `MockXianyuLive._extract_order_id` (mirroring
`XianyuAutoAsync.py`): structured extraction first, flattened regex
scan second; a non-dict message raises in `message.get` and the outer
`except` returns `None`. -/
def extract_order_id (jp : String → Option PyVal) (e : PyVal) : Option String :=
  match e with
  | .pdict es =>
    match structExtract jp es with
    | some v => some v
    | none => extractFlat (pyStr e)
  | _ => none

/-- `auto_delivery_keywords` of `MockXianyuLive._is_auto_delivery_trigger`. -/
def auto_delivery_keywords : List String :=
  ["[我已付款，等待你发货]", "[已付款，待发货]", "我已付款，等待你发货", "[记得及时发货]"]

/-- `payment_indicators` of the non-chat-message payment detection. -/
def payment_indicators : List String :=
  ["我已付款", "已付款，待发货", "等待你发货", "TRADE_PAID_DONE_SELLER"]

/-- The negative-status phrases exercised by the tests: unpaid, refund
requested, trade closed, waiting-for-seller reminder. -/
def negative_phrases : List String :=
  ["[我已拍下，待付款]", "买家已拍下，待付款", "[我发起了退款申请]", "[交易关闭]", "等待卖家发货"]

/-- `MockXianyuLive._is_auto_delivery_trigger`: any trigger keyword
contained in the message. -/
def is_auto_delivery_trigger (message : String) : Bool :=
  auto_delivery_keywords.any fun kw => strContains message kw

/-- `_detect_payment` of the tests: serialize the event, test the
payment indicators for containment. -/
def detect_payment (msg : String) : Bool :=
  payment_indicators.any fun kw => strContains msg kw

/-- `classify(rawEvent) -> (isPayment, orderId)` (spec §4.1): payment
detection over the flattened event, together with order-id extraction. -/
def classify (jp : String → Option PyVal) (e : PyVal) : Bool × Option String :=
  (detect_payment (pyStr e), extract_order_id jp e)

/-! ## Helper lemmas about stock consumption -/

lemma popCard_fst_none (c : Card) : (popCard c).1 = none → (popCard c).2 = c := by
  rcases hdc : c.data_content with _ | dc
  · simp [popCard, hdc]
  · rcases hnb : nonBlankLines dc with _ | ⟨l, ls⟩
    · simp [popCard, hdc, hnb]
    · simp [popCard, hdc, hnb]

lemma popCard_fst_some (c : Card) (v : String) : (popCard c).1 = some v →
    ∃ dc ls, c.data_content = some dc ∧ nonBlankLines dc = v :: ls ∧
      (popCard c).2 = { c with data_content := some (String.intercalate "\n" ls) } := by
  rcases hdc : c.data_content with _ | dc
  · simp [popCard, hdc]
  · rcases hnb : nonBlankLines dc with _ | ⟨l, ls⟩
    · simp [popCard, hdc, hnb]
    · intro h
      simp only [popCard, hdc, hnb, Option.some.injEq] at h
      exact ⟨dc, ls, rfl, by rw [hnb, h], by simp [popCard, hdc, hnb]⟩

lemma consumeGo_fst_none (cid : Nat) :
    ∀ l : List Card, (consumeGo cid l).1 = none → (consumeGo cid l).2 = l := by
  intro l
  induction l with
  | nil => intro _; rfl
  | cons c rest ih =>
    by_cases hc : c.id = cid ∧ c.type = "data"
    · simp only [consumeGo, if_pos hc]
      intro h
      rw [popCard_fst_none c h]
    · simp only [consumeGo, if_neg hc]
      intro h
      rw [ih h]

lemma consumeGo_fst_some (cid : Nat) :
    ∀ (l : List Card) (v : String), (consumeGo cid l).1 = some v →
    ∃ l1 c l2 dc ls,
      l = l1 ++ c :: l2 ∧
      (∀ c' ∈ l1, ¬(c'.id = cid ∧ c'.type = "data")) ∧
      c.id = cid ∧ c.type = "data" ∧
      c.data_content = some dc ∧ nonBlankLines dc = v :: ls ∧
      (consumeGo cid l).2 =
        l1 ++ { c with data_content := some (String.intercalate "\n" ls) } :: l2 := by
  intro l
  induction l with
  | nil => intro v h; simp [consumeGo] at h
  | cons c rest ih =>
    intro v h
    by_cases hc : c.id = cid ∧ c.type = "data"
    · simp only [consumeGo, if_pos hc] at h ⊢
      obtain ⟨dc, ls, hdc, hnb, h2⟩ := popCard_fst_some c v h
      exact ⟨[], c, rest, dc, ls, by simp, by simp, hc.1, hc.2, hdc, hnb, by rw [h2]; rfl⟩
    · simp only [consumeGo, if_neg hc] at h ⊢
      obtain ⟨l1, c1, l2, dc, ls, he, hnone, h1, h2, h3, h4, h5⟩ := ih v h
      refine ⟨c :: l1, c1, l2, dc, ls, by rw [he]; rfl, ?_, h1, h2, h3, h4, by rw [h5]; rfl⟩
      intro x hx
      rcases List.mem_cons.1 hx with rfl | hx2
      · exact hc
      · exact hnone x hx2

/-! ## Claim theorems: stock consumption (C3, C10) -/

/-- A concrete `data` card whose stock holds the two lines `A` and `B`. -/
def stockCardAB : Card :=
  ⟨9, "stock", "data", none, none, some "A\nB", none, true, 0, some false, none, none⟩

/-- C3: with stock lines `A` and `B`, successive pops through
`consume_batch_data` return `A` (the stored content becomes `B`), then
`B` (the stored content becomes empty), and a third pop finds no
non-blank line and returns no value, leaving the table unchanged; each
successful pop removes exactly the first non-blank line and writes the
remaining sequence back in the same atomic step. -/
theorem consume_stock_exhaustion :
    consume_batch_data [stockCardAB] 9
      = (some "A", [{ stockCardAB with data_content := some "B" }]) ∧
    consume_batch_data [{ stockCardAB with data_content := some "B" }] 9
      = (some "B", [{ stockCardAB with data_content := some "" }]) ∧
    consume_batch_data [{ stockCardAB with data_content := some "" }] 9
      = (none, [{ stockCardAB with data_content := some "" }]) := by
  refine ⟨?_, ?_, ?_⟩ <;> decide

/-- C10: a stock pop touches nothing but the `data_content` of the
first card with the requested id and type `data`: on failure it returns
the table unchanged; on success it returns the head of the trimmed
non-blank lines of that card's content and rewrites that card's content
to the newline-join of the remaining trimmed non-blank lines (every
remaining line re-trimmed, every blank line dropped), all cards before
it not matching (id, `'data'`) and every other card left intact. -/
theorem consume_batch_data_frame (cards : List Card) (cid : Nat) :
    ((consume_batch_data cards cid).1 = none →
      (consume_batch_data cards cid).2 = cards) ∧
    (∀ v, (consume_batch_data cards cid).1 = some v →
      ∃ l1 c l2 dc ls,
        cards = l1 ++ c :: l2 ∧
        (∀ c' ∈ l1, ¬(c'.id = cid ∧ c'.type = "data")) ∧
        c.id = cid ∧ c.type = "data" ∧
        c.data_content = some dc ∧
        nonBlankLines dc = v :: ls ∧
        (consume_batch_data cards cid).2 =
          l1 ++ { c with data_content := some (String.intercalate "\n" ls) } :: l2) :=
  ⟨consumeGo_fst_none cid cards, fun v h => consumeGo_fst_some cid cards v h⟩

/-! ## Claim theorems: idempotent fulfillment (C1) -/

lemma fulfill_mem_ledger (key : String) (cands : List (DeliveryRule × Card))
    (s : EngineState) (v : String)
    (h : (fulfill key cands s).1 = Outcome.Fulfilled v) :
    key ∈ (fulfill key cands s).2.ledger := by
  by_cases hmem : key ∈ s.ledger
  · simp [fulfill, hmem] at h
  · rcases cands with _ | ⟨⟨r, c⟩, rest⟩
    · simp [fulfill, hmem] at h
    · by_cases hd : c.type = "data"
      · rcases hcons : consume_batch_data s.cards c.id with ⟨o, cards1⟩
        rcases o with _ | v1
        · simp [fulfill, hmem, hd, hcons] at h
        · simp [fulfill, hmem, hd, hcons]
      · simp [fulfill, hmem, hd]

/-- C1: once an invocation of `fulfill` for a key has produced
`Fulfilled`, the duplicate invocation of `fulfill` with the same key
returns `Skipped("already-delivered")` and leaves the state untouched
(no further side effects). The two invocations are identical atomic
steps, so under either serialization order of a concurrent duplicate
pair the outcomes are exactly one `Fulfilled` and one
`Skipped("already-delivered")`. -/
theorem fulfill_duplicate_skipped (key : String)
    (cands : List (DeliveryRule × Card)) (s : EngineState) (v : String)
    (h : (fulfill key cands s).1 = Outcome.Fulfilled v) :
    fulfill key cands (fulfill key cands s).2 =
      (Outcome.Skipped "already-delivered", (fulfill key cands s).2) := by
  have hmem := fulfill_mem_ledger key cands s v h
  set s1 := (fulfill key cands s).2 with hs1
  unfold fulfill
  rw [if_pos hmem]

/-- A concrete delivery rule and static card exercising `fulfill`. -/
def demoRule : DeliveryRule := ⟨1, "kw", 1, 1, true, 0⟩

/-- A concrete enabled text card with payload `CODE-1`. -/
def demoTextCard : Card :=
  ⟨1, "one", "text", none, some "CODE-1", none, none, true, 0, some false, none, none⟩

/-- Initial engine state for the `fulfill` witness: empty ledger. -/
def demoState : EngineState := ⟨[], [demoRule], [demoTextCard]⟩

theorem fulfill_duplicate_skipped_witness :
    (fulfill "order-1" [(demoRule, demoTextCard)] demoState).1
        = Outcome.Fulfilled "CODE-1" ∧
    fulfill "order-1" [(demoRule, demoTextCard)]
        (fulfill "order-1" [(demoRule, demoTextCard)] demoState).2 =
      (Outcome.Skipped "already-delivered",
        (fulfill "order-1" [(demoRule, demoTextCard)] demoState).2) :=
  ⟨by decide, fulfill_duplicate_skipped "order-1" [(demoRule, demoTextCard)]
      demoState "CODE-1" (by decide)⟩

/-! ## Helper lemmas about the spec-aware matcher -/

lemma mem_specPassExact (kw n v : String) (rules : List DeliveryRule)
    (cards : List Card) (p : DeliveryRule × Card)
    (h : p ∈ specPassExact kw n v rules cards) :
    p.2.is_multi_spec = some true ∧ p.2.spec_name = some n ∧
      p.2.spec_value = some v := by
  have h2 := (List.mem_insertionSort (rankRelTimes kw)).1 h
  have h3 := List.of_mem_filter h2
  simp only [Bool.and_eq_true, beq_iff_eq] at h3
  exact ⟨h3.1.1.2, h3.1.2, h3.2⟩

lemma mem_specPassFallback (kw : String) (rules : List DeliveryRule)
    (cards : List Card) (p : DeliveryRule × Card)
    (h : p ∈ specPassFallback kw rules cards) :
    p.2.is_multi_spec = some false ∨ p.2.is_multi_spec = none := by
  have h2 := (List.mem_insertionSort (rankRelTimes kw)).1 h
  have h3 := List.of_mem_filter h2
  simp only [Bool.and_eq_true, Bool.or_eq_true, beq_iff_eq] at h3
  exact h3.2

lemma spec_query_split (kw : String) (sn sv : Option String)
    (rules : List DeliveryRule) (cards : List Card) (p : DeliveryRule × Card)
    (h : p ∈ get_delivery_rules_by_keyword_and_spec kw sn sv rules cards) :
    (∃ n v, sn = some n ∧ sv = some v ∧ (!(n == "") && !(v == "")) = true ∧
      p ∈ specPassExact kw n v rules cards) ∨
    (p ∈ specPassFallback kw rules cards ∧
      ∀ n v, sn = some n → sv = some v → (!(n == "") && !(v == "")) = true →
        specPassExact kw n v rules cards = []) := by
  rcases sn with _ | n
  · exact Or.inr ⟨h, fun n v hn => by cases hn⟩
  · rcases sv with _ | v
    · exact Or.inr ⟨h, fun n' v' _ hv => by cases hv⟩
    · simp only [get_delivery_rules_by_keyword_and_spec] at h
      by_cases ht : (!(n == "") && !(v == "")) = true
      · rw [if_pos ht] at h
        by_cases he : (specPassExact kw n v rules cards).isEmpty = true
        · rw [if_pos he] at h
          refine Or.inr ⟨h, fun n' v' hn' hv' _ => ?_⟩
          injection hn' with e1
          injection hv' with e2
          subst e1; subst e2
          exact List.isEmpty_iff.1 he
        · rw [if_neg he] at h
          exact Or.inl ⟨n, v, rfl, rfl, ht, h⟩
      · rw [if_neg ht] at h
        refine Or.inr ⟨h, fun n' v' hn' hv' ht' => ?_⟩
        injection hn' with e1
        injection hv' with e2
        subst e1; subst e2
        exact absurd ht' ht

/-! ## Claim theorems: spec matching (C2, C9) -/

/-- C2: a returned pair of the spec-aware matcher either carries a
multi-spec card whose `(spec_name, spec_value)` equal the supplied spec
exactly (first pass), or a generic card (`is_multi_spec` false or NULL)
and then only because the exact first pass produced no rows; when
neither pass matches anything the result is the empty list, never a
wrong-spec hit. -/
theorem spec_matcher_no_cross_spec (kw : String) (sn sv : Option String)
    (rules : List DeliveryRule) (cards : List Card) :
    (∀ p ∈ get_delivery_rules_by_keyword_and_spec kw sn sv rules cards,
      (∃ n v, sn = some n ∧ sv = some v ∧
        p.2.is_multi_spec = some true ∧ p.2.spec_name = some n ∧
        p.2.spec_value = some v) ∨
      ((p.2.is_multi_spec = some false ∨ p.2.is_multi_spec = none) ∧
        ∀ n v, sn = some n → sv = some v →
          (!(n == "") && !(v == "")) = true →
          specPassExact kw n v rules cards = [])) ∧
    (∀ n v, sn = some n → sv = some v →
      specPassExact kw n v rules cards = [] →
      specPassFallback kw rules cards = [] →
      get_delivery_rules_by_keyword_and_spec kw sn sv rules cards = []) := by
  constructor
  · intro p hp
    rcases spec_query_split kw sn sv rules cards p hp with
      ⟨n, v, hsn, hsv, _, hmem⟩ | ⟨hmem, hempty⟩
    · obtain ⟨h1, h2, h3⟩ := mem_specPassExact kw n v rules cards p hmem
      exact Or.inl ⟨n, v, hsn, hsv, h1, h2, h3⟩
    · exact Or.inr ⟨mem_specPassFallback kw rules cards p hmem, hempty⟩
  · intro n v hsn hsv h1 h2
    subst hsn; subst hsv
    simp only [get_delivery_rules_by_keyword_and_spec]
    by_cases ht : (!(n == "") && !(v == "")) = true
    · rw [if_pos ht, h1]
      simp [h2]
    · rw [if_neg ht]
      exact h2

/-- C9: a rule whose card has `is_multi_spec = true` can only be
returned by the spec-aware matcher when both spec parts were supplied
(non-empty) and equal the card's `(spec_name, spec_value)` exactly;
whenever the spec is not fully supplied, or the exact pass came back
empty, every returned card is generic (`is_multi_spec` false or NULL) —
multi-spec cards are unreachable without an exact spec match. -/
theorem multi_spec_requires_exact (kw : String) (sn sv : Option String)
    (rules : List DeliveryRule) (cards : List Card) :
    (∀ p ∈ get_delivery_rules_by_keyword_and_spec kw sn sv rules cards,
      p.2.is_multi_spec = some true →
      ∃ n v, sn = some n ∧ sv = some v ∧ (!(n == "") && !(v == "")) = true ∧
        p.2.spec_name = some n ∧ p.2.spec_value = some v) ∧
    ((specSupplied sn && specSupplied sv) = false →
      ∀ p ∈ get_delivery_rules_by_keyword_and_spec kw sn sv rules cards,
        p.2.is_multi_spec = some false ∨ p.2.is_multi_spec = none) ∧
    (∀ n v, sn = some n → sv = some v →
      specPassExact kw n v rules cards = [] →
      ∀ p ∈ get_delivery_rules_by_keyword_and_spec kw sn sv rules cards,
        p.2.is_multi_spec = some false ∨ p.2.is_multi_spec = none) := by
  refine ⟨?_, ?_, ?_⟩
  · intro p hp hmulti
    rcases spec_query_split kw sn sv rules cards p hp with
      ⟨n, v, hsn, hsv, ht, hmem⟩ | ⟨hmem, _⟩
    · obtain ⟨_, h2, h3⟩ := mem_specPassExact kw n v rules cards p hmem
      exact ⟨n, v, hsn, hsv, ht, h2, h3⟩
    · rcases mem_specPassFallback kw rules cards p hmem with hgen | hgen <;>
        rw [hmulti] at hgen <;> cases hgen
  · intro hsupp p hp
    rcases spec_query_split kw sn sv rules cards p hp with
      ⟨n, v, hsn, hsv, ht, _⟩ | ⟨hmem, _⟩
    · subst hsn; subst hsv
      simp only [specSupplied] at hsupp
      rw [hsupp] at ht
      cases ht
    · exact mem_specPassFallback kw rules cards p hmem
  · intro n v hsn hsv hempty p hp
    rcases spec_query_split kw sn sv rules cards p hp with
      ⟨n', v', hsn', hsv', _, hmem⟩ | ⟨hmem, _⟩
    · rw [hsn] at hsn'
      rw [hsv] at hsv'
      injection hsn' with e1
      injection hsv' with e2
      subst e1; subst e2
      rw [hempty] at hmem
      cases hmem
    · exact mem_specPassFallback kw rules cards p hmem

/-! ## Demo catalog for witnesses and counterexamples -/

/-- Multi-spec card for the `(color, red)` variant. -/
def cardRed : Card :=
  ⟨3, "red", "text", none, some "RED", none, none, true, 0, some true,
    some "color", some "red"⟩

/-- Multi-spec card for the `(color, blue)` variant. -/
def cardBlue : Card :=
  ⟨4, "blue", "text", none, some "BLUE", none, none, true, 0, some true,
    some "color", some "blue"⟩

/-- Generic (non-multi-spec) card. -/
def cardGen : Card :=
  ⟨5, "gen", "text", none, some "GEN", none, none, true, 0, some false,
    none, none⟩

/-- Rule delivering the red variant; 7 past deliveries. -/
def ruleRed : DeliveryRule := ⟨3, "item", 3, 1, true, 7⟩

/-- Rule delivering the blue variant; 1 past delivery. -/
def ruleBlue : DeliveryRule := ⟨4, "item", 4, 1, true, 1⟩

/-- Rule delivering the generic card; 2 past deliveries. -/
def ruleGen : DeliveryRule := ⟨5, "item", 5, 1, true, 2⟩

theorem spec_matcher_no_cross_spec_witness :
    (ruleRed, cardRed) ∈ get_delivery_rules_by_keyword_and_spec "an item"
        (some "color") (some "red") [ruleRed, ruleBlue, ruleGen]
        [cardRed, cardBlue, cardGen] ∧
    ((∃ n v, (some "color" : Option String) = some n ∧
        (some "red" : Option String) = some v ∧
        (ruleRed, cardRed).2.is_multi_spec = some true ∧
        (ruleRed, cardRed).2.spec_name = some n ∧
        (ruleRed, cardRed).2.spec_value = some v) ∨
      (((ruleRed, cardRed).2.is_multi_spec = some false ∨
          (ruleRed, cardRed).2.is_multi_spec = none) ∧
        ∀ n v, (some "color" : Option String) = some n →
          (some "red" : Option String) = some v →
          (!(n == "") && !(v == "")) = true →
          specPassExact "an item" n v [ruleRed, ruleBlue, ruleGen]
            [cardRed, cardBlue, cardGen] = [])) :=
  ⟨by decide,
    (spec_matcher_no_cross_spec "an item" (some "color") (some "red")
      [ruleRed, ruleBlue, ruleGen] [cardRed, cardBlue, cardGen]).1
      (ruleRed, cardRed) (by decide)⟩

theorem multi_spec_requires_exact_witness :
    specPassExact "an item" "color" "green" [ruleRed, ruleBlue, ruleGen]
      [cardRed, cardBlue, cardGen] = [] ∧
    (ruleGen, cardGen) ∈ get_delivery_rules_by_keyword_and_spec "an item"
      (some "color") (some "green") [ruleRed, ruleBlue, ruleGen]
      [cardRed, cardBlue, cardGen] ∧
    ((ruleGen, cardGen).2.is_multi_spec = some false ∨
      (ruleGen, cardGen).2.is_multi_spec = none) :=
  ⟨by decide, by decide,
    (multi_spec_requires_exact "an item" (some "color") (some "green")
      [ruleRed, ruleBlue, ruleGen] [cardRed, cardBlue, cardGen]).2.2
      "color" "green" rfl rfl (by decide) (ruleGen, cardGen) (by decide)⟩

/-! ## Claim theorems: ranking (C4, C5) -/

/-- Enabled generic card with id 1 (joined by the ranking demos). -/
def cardOne : Card :=
  ⟨1, "one", "text", none, some "P1", none, none, true, 0, some false, none, none⟩

/-- Enabled generic card with id 2 (joined by the ranking demos). -/
def cardTwo : Card :=
  ⟨2, "two", "text", none, some "P2", none, none, true, 0, some false, none, none⟩

/-- Rule whose keyword `b` matches the query text `b` exactly. -/
def ruleExactB : DeliveryRule := ⟨1, "b", 1, 1, true, 0⟩

/-- Rule whose keyword `abcd` matches the query text `b` only by
reverse containment. -/
def ruleRevAbcd : DeliveryRule := ⟨2, "abcd", 2, 1, true, 0⟩

/-- C4 counterexample: for text `b`, rule 1 (`keyword = "b"`) is an
exact-substring match (score 1) while rule 2 (`keyword = "abcd"`)
matches only by reverse containment (score `4 / 2 = 2`), yet the ranked
list places rule 2 first — an exact-substring match does NOT always
rank at or above a reverse-containment-only match. -/
theorem keyword_rank_counterexample :
    strContains "b" "b" = true ∧
    strContains "b" "abcd" = false ∧
    strContains "abcd" "b" = true ∧
    kwScore "b" ruleExactB = 1 ∧ kwScore "b" ruleRevAbcd = 2 ∧
    (get_delivery_rules_by_keyword "b" [ruleExactB, ruleRevAbcd]
        [cardOne, cardTwo]).map (fun p => p.1.id) = [2, 1] := by
  refine ⟨rfl, rfl, rfl, rfl, rfl, by decide⟩

/-- Rule for keyword `手机壳` (phone case), length 3. -/
def phoneCaseRule : DeliveryRule := ⟨1, "手机壳", 1, 1, true, 0⟩

/-- Rule for keyword `手机` (phone), length 2. -/
def phoneRule : DeliveryRule := ⟨2, "手机", 2, 1, true, 0⟩

/-- C4 (amended): eligible rules are ranked by descending score, where
an exact-substring match scores `length(keyword)` and a
reverse-containment-only match scores `length(keyword) / 2` (integer
division); consequently an exact match ranks at or above any
reverse-containment-only match unless the reverse keyword's half-length
already reaches the exact keyword's full length (an exact match found
strictly below a reverse-only match forces
`len(exact) ≤ len(reverse) / 2`); with keywords `手机壳`/`手机` and text
`有手机壳吗`, `手机壳` (score 3) is ranked before `手机` (score 2). -/
theorem keyword_rank_ordering (kw : String) (rules : List DeliveryRule)
    (cards : List Card) :
    (∀ r : DeliveryRule, kwScore kw r =
      if strContains kw r.keyword then r.keyword.length
      else r.keyword.length / 2) ∧
    List.Sorted (rankRelId kw) (get_delivery_rules_by_keyword kw rules cards) ∧
    (get_delivery_rules_by_keyword kw rules cards).Pairwise
      (fun p q => strContains kw q.1.keyword = true →
        strContains kw p.1.keyword = false →
        q.1.keyword.length ≤ p.1.keyword.length / 2) ∧
    (get_delivery_rules_by_keyword "有手机壳吗" [phoneCaseRule, phoneRule]
        [cardOne, cardTwo]).map (fun p => p.1.keyword) = ["手机壳", "手机"] := by
  refine ⟨fun r => rfl, List.sorted_insertionSort _ _, ?_, by decide⟩
  refine List.Pairwise.imp ?_ (List.sorted_insertionSort (rankRelId kw) _)
  intro p q hpq hq hp
  have e1 : kwScore kw q.1 = q.1.keyword.length := by simp [kwScore, hq]
  have e2 : kwScore kw p.1 = p.1.keyword.length / 2 := by simp [kwScore, hp]
  rcases hpq with hlt | ⟨he, _⟩
  · rw [e1, e2] at hlt
    omega
  · rw [e1, e2] at he
    omega

/-- Rule with keyword `k`, id 1, 5 past deliveries. -/
def tieRule1 : DeliveryRule := ⟨1, "k", 1, 1, true, 5⟩

/-- Rule with keyword `k`, id 2, 0 past deliveries. -/
def tieRule2 : DeliveryRule := ⟨2, "k", 2, 1, true, 0⟩

/-- Red-variant card with id 6 for the first-pass tie demo. -/
def cardRedSix : Card :=
  ⟨6, "red6", "text", none, some "R6", none, none, true, 0, some true,
    some "color", some "red"⟩

/-- Red-variant card with id 7 for the first-pass tie demo. -/
def cardRedSeven : Card :=
  ⟨7, "red7", "text", none, some "R7", none, none, true, 0, some true,
    some "color", some "red"⟩

/-- Rule id 6 for `cardRedSix`, 7 past deliveries. -/
def ruleRedSix : DeliveryRule := ⟨6, "item", 6, 1, true, 7⟩

/-- Rule id 7 for `cardRedSeven`, 1 past delivery. -/
def ruleRedSeven : DeliveryRule := ⟨7, "item", 7, 1, true, 1⟩

/-- C5 counterexample: in the spec-aware query, two rules with equal
rank score are NOT ordered by rule id ascending: the fallback pass
orders ids `[2, 1]` (delivery_times 0 before 5) and the exact
multi-spec pass orders ids `[7, 6]` (delivery_times 1 before 7) — both
passes break ties by `delivery_times` ascending, not by rule id. -/
theorem spec_query_tie_counterexample :
    kwScore "k" tieRule1 = kwScore "k" tieRule2 ∧
    tieRule1.id < tieRule2.id ∧
    (get_delivery_rules_by_keyword_and_spec "k" none none
        [tieRule1, tieRule2] [cardOne, cardTwo]).map (fun p => p.1.id)
      = [2, 1] ∧
    kwScore "an item" ruleRedSix = kwScore "an item" ruleRedSeven ∧
    ruleRedSix.id < ruleRedSeven.id ∧
    (get_delivery_rules_by_keyword_and_spec "an item" (some "color")
        (some "red") [ruleRedSix, ruleRedSeven]
        [cardRedSix, cardRedSeven]).map (fun p => p.1.id) = [7, 6] := by
  refine ⟨rfl, by decide, by decide, rfl, by decide, by decide⟩

lemma spec_query_sorted (kw : String) (sn sv : Option String)
    (rules : List DeliveryRule) (cards : List Card) :
    List.Sorted (rankRelTimes kw)
      (get_delivery_rules_by_keyword_and_spec kw sn sv rules cards) := by
  rcases sn with _ | n <;> rcases sv with _ | v <;>
    simp only [get_delivery_rules_by_keyword_and_spec] <;>
    try exact List.sorted_insertionSort _ _
  split
  · split
    · exact List.sorted_insertionSort _ _
    · exact List.sorted_insertionSort _ _
  · exact List.sorted_insertionSort _ _

/-- C5 (amended): when two eligible rules receive the same rank score,
the plain keyword query orders them by rule id ascending, while both
passes of the spec-aware keyword query order them by `delivery_times`
ascending (their SQL `ORDER BY` ends in `dr.delivery_times ASC`, not
`dr.id ASC`). -/
theorem tie_break_ordering (kw : String) (sn sv : Option String)
    (rules : List DeliveryRule) (cards : List Card) :
    List.Sorted (rankRelId kw) (get_delivery_rules_by_keyword kw rules cards) ∧
    (get_delivery_rules_by_keyword kw rules cards).Pairwise
      (fun p q => kwScore kw p.1 = kwScore kw q.1 → p.1.id ≤ q.1.id) ∧
    List.Sorted (rankRelTimes kw)
      (get_delivery_rules_by_keyword_and_spec kw sn sv rules cards) ∧
    (get_delivery_rules_by_keyword_and_spec kw sn sv rules cards).Pairwise
      (fun p q => kwScore kw p.1 = kwScore kw q.1 →
        p.1.delivery_times ≤ q.1.delivery_times) := by
  refine ⟨List.sorted_insertionSort _ _, ?_, spec_query_sorted kw sn sv rules cards, ?_⟩
  · refine List.Pairwise.imp ?_ (List.sorted_insertionSort (rankRelId kw) _)
    intro p q hpq heq
    rcases hpq with hlt | ⟨_, hid⟩
    · omega
    · exact hid
  · refine List.Pairwise.imp ?_ (spec_query_sorted kw sn sv rules cards)
    intro p q hpq heq
    rcases hpq with hlt | ⟨_, hdt⟩
    · omega
    · exact hdt

/-! ## Claim theorems: classifier and matcher degradation (C6, C7, C8) -/

lemma extractFlat_eq_specScan (s : String) : extractFlat s = specPriorityScan s := by
  simp only [extractFlat, specPriorityScan]
  rcases h1 : scanLeftmost matchP1 s.toList with _ | r1 <;>
    simp only [scanPatternLoop, h1]
  rcases h2 : scanLeftmost matchP2 s.toList with _ | r2 <;>
    simp only [scanPatternLoop, h2]
  rcases h3 : scanLeftmost matchP3 s.toList with _ | r3 <;>
    simp only [scanPatternLoop, h3]
  rcases h4 : scanLeftmost matchP4 s.toList with _ | r4 <;>
    simp only [scanPatternLoop, h4]

/-- The spec's §8 scenario-2 event: a bare reminder with no button or
url payload, an 11-digit chat id, and a 13-digit timestamp. -/
def malformedEvent : PyVal :=
  .pdict [("1", .pstr "58497186568@goofish"), ("2", .pint 1),
    ("3", .pdict [("redReminder", .pstr "等待卖家发货")]),
    ("4", .pint 1771239570155)]

/-- C6: the classifier and the matcher never surface an error. The
guarded matcher returns the empty list — a valid, non-error result —
whenever the underlying query fails; and `classify` on an event on
which every extraction stage comes up empty (structured path, flat
regex scan, payment phrases) returns `(false, none)` — the worst case
is a negative verdict, never an exception. -/
theorem classifier_matcher_degrade :
    (∀ (kw msg : String)
      (runQuery : String → Except String (List (DeliveryRule × Card))),
      runQuery kw = Except.error msg →
      get_delivery_rules_by_keyword_guarded kw runQuery = []) ∧
    (∀ (jp : String → Option PyVal) (e : PyVal),
      (∀ es, e = PyVal.pdict es → structExtract jp es = none) →
      extractFlat (pyStr e) = none →
      detect_payment (pyStr e) = false →
      classify jp e = (false, none)) := by
  constructor
  · intro kw msg runQuery h
    simp [get_delivery_rules_by_keyword_guarded, h]
  · intro jp e hstruct hflat hdet
    rcases e with s | n | es | xs
    · simp [classify, extract_order_id, hdet]
    · simp [classify, extract_order_id, hdet]
    · simp [classify, extract_order_id, hstruct es rfl, hflat, hdet]
    · simp [classify, extract_order_id, hdet]

theorem classifier_matcher_degrade_witness :
    get_delivery_rules_by_keyword_guarded "hello"
        (fun _ => Except.error "database unavailable") = [] ∧
    classify (fun _ => none) malformedEvent = (false, none) :=
  ⟨classifier_matcher_degrade.1 "hello" "database unavailable"
      (fun _ => Except.error "database unavailable") rfl,
    classifier_matcher_degrade.2 (fun _ => none) malformedEvent
      (fun es hes => by injection hes with h; subst h; decide)
      (by decide) (by decide)⟩

/-- The test-suite event whose order id sits only in a flat
`reminderUrl` string (`test_extract_from_string_message_orderId`). -/
def reminderUrlEntries : List (String × PyVal) :=
  [("1", .pstr "some_string"),
   ("4", .pdict [("reminderUrl",
      .pstr "https://example.com?orderId=1234567890123")])]

/-- C7: when the structured extraction yields no order id, the
classifier serializes the whole event and scans exactly the four
patterns `orderId[=:]`, `order_detail\?id=`, `"id"\s*:\s*"?`,
`bizOrderId[=:]` — each demanding at least 10 digits — in that fixed
priority order (the source loop equals the spec-side priority scan);
the first match of the first matching pattern wins, with no
reconciliation across patterns: an `orderId=` hit beats an earlier
`"id":` hit, a 9-digit id is rejected, and of two `orderId=` hits the
leftmost is returned. -/
theorem extract_order_id_flat_priority :
    (∀ s : String, extractFlat s = specPriorityScan s) ∧
    (∀ (jp : String → Option PyVal) (es : List (String × PyVal)),
      structExtract jp es = none →
      extract_order_id jp (PyVal.pdict es) =
        specPriorityScan (pyStr (PyVal.pdict es))) ∧
    specPriorityScan "\x7b\x22id\x22: \x221111111111\x22, \x22u\x22: \x22x?orderId=2222222222\x22\x7d"
      = some "2222222222" ∧
    specPriorityScan "orderId=123456789" = none ∧
    specPriorityScan "orderId=1111111111 orderId=2222222222"
      = some "1111111111" ∧
    specPriorityScan "\x22id\x22: 1234567890" = some "1234567890" := by
  refine ⟨extractFlat_eq_specScan, ?_, by decide, by decide, by decide, by decide⟩
  intro jp es h
  simp only [extract_order_id, h]
  exact extractFlat_eq_specScan (pyStr (PyVal.pdict es))

theorem extract_order_id_flat_priority_witness :
    extract_order_id (fun _ => none) (PyVal.pdict reminderUrlEntries) =
      specPriorityScan (pyStr (PyVal.pdict reminderUrlEntries)) ∧
    specPriorityScan (pyStr (PyVal.pdict reminderUrlEntries)) =
      some "1234567890123" :=
  ⟨extract_order_id_flat_priority.2.1 (fun _ => none) reminderUrlEntries
      (by decide),
    by decide⟩

/-- C8: no auto-delivery trigger keyword and no payment indicator
occurs as a substring of any negative-status phrase; each negative
phrase alone, and a message consisting of all five negative phrases in
sequence, is classified as non-payment by both detectors. -/
theorem phrase_lists_disjoint :
    ((auto_delivery_keywords ++ payment_indicators).all fun p =>
      negative_phrases.all fun n => !(strContains n p)) = true ∧
    (negative_phrases.all fun n =>
      !(detect_payment n) && !(is_auto_delivery_trigger n)) = true ∧
    detect_payment
      "[我已拍下，待付款]买家已拍下，待付款[我发起了退款申请][交易关闭]等待卖家发货" = false ∧
    is_auto_delivery_trigger
      "[我已拍下，待付款]买家已拍下，待付款[我发起了退款申请][交易关闭]等待卖家发货" = false := by
  refine ⟨by decide, by decide, by decide, by decide⟩

end Xianyu
